import Mathlib

/-
Verification of the Pomodoro timer engine (src/main.rs).

The embedding models the egui application state machine faithfully:
  - MyApp is the structure Sys below; u8 counters increment modulo 256,
    u32 values are Nat (all reachable values are far below 2^32).
  - Arc allocation matters: the program repeatedly replaces the field
    time_sec with a fresh Arc (Mutex (u32)), detaching any thread that
    cloned the old Arc.  We model the set of allocated cells as a list
    (heap) and an index (generation) for the current field value; likewise
    for the two AtomicBool flags, which are replaced by the stop reset.
  - The countdown worker thread is a small step machine whose program
    counter follows the source loop: check flag, sleep one second,
    lock and decrement (clamped at zero), repeat; on a positive flag
    check it stores true into its done flag and exits.
  - UI button clicks, one frame of MyApp.update (expiry transition then
    thread reclamation) and single worker steps are the atomic actions of
    an interleaving semantics; Reach is the set of reachable states.
  - Desktop notifications are recorded in a ghost log: the source call
    Notification summary "Pomodoro", body text, Hint Resident(true) and
    timeout 0 is recorded as one Notif with persistent = true.
-/

namespace Pomodoro

inductive AppState where
  | STEADY
  | SETTING
deriving DecidableEq

inductive RunState where
  | LAP
  | RestLap
  | RestLoop
deriving DecidableEq

/-- Program counter of the spawned countdown thread.  The loop body in the
source is: (check) if pause_flag then break; (sleep) sleep 1 s;
(dec) lock time and decrement if positive; back to check.  After the break
the thread stores true into thread_done_flag and terminates (exited). -/
inductive WorkerPC where
  | check
  | sleep
  | dec
  | exited
deriving DecidableEq

/-- One spawned countdown thread: the generations (heap indices) of the
Arc clones it captured at spawn time, its program counter, and whether the
engine has joined it. -/
structure Worker where
  timeGen : Nat
  pauseGen : Nat
  doneGen : Nat
  pc : WorkerPC
  joined : Bool
deriving DecidableEq

/-- A notification request sent to the desktop service. -/
structure Notif where
  title : String
  body : String
  persistent : Bool
deriving DecidableEq

/-- The notification built in MyApp.update: summary "Pomodoro", the body
text below, Hint Resident(true) with timeout 0, i.e. persistent. -/
def pomodoroNotif : Notif :=
  { title := "Pomodoro", body := "Time out! Please check your tomato!",
    persistent := true }

/-- The whole application state (struct MyApp), plus the allocation heaps
for the Arc cells and flags, the spawned threads, and the ghost log of
emitted notifications. -/
structure Sys where
  app_state : AppState
  run_state : RunState
  running : Bool
  pause : Bool
  heap : List Nat
  timeGen : Nat
  cur_lap : Nat
  cur_loop : Nat
  lap_dur_min : Nat
  rest_lap_min : Nat
  rest_loop_min : Nat
  pauseFlags : List Bool
  pauseGen : Nat
  doneFlags : List Bool
  doneGen : Nat
  workers : List Worker
  child_process : Option Nat
  notifs : List Notif
deriving DecidableEq

/-- Value of an allocated u32 cell (reads of a dangling generation yield 0;
no reachable state reads a dangling generation). -/
def cellVal (heap : List Nat) (g : Nat) : Nat := (heap.get? g).getD 0

/-- Value of an allocated AtomicBool. -/
def flagVal (flags : List Bool) (g : Nat) : Bool := (flags.get? g).getD false

/-- The value currently shown by the shared counter time_sec. -/
def timeVal (s : Sys) : Nat := cellVal s.heap s.timeGen

/-- MyApp::default(): Work phase, 25 minutes on the clock, rests of 5 and
30 minutes, zero counters, not running, paused, fresh flags, no thread. -/
def defaultSys : Sys :=
  { app_state := AppState.STEADY, run_state := RunState.LAP,
    running := false, pause := true,
    heap := [25 * 60], timeGen := 0,
    cur_lap := 0, cur_loop := 0,
    lap_dur_min := 25, rest_lap_min := 5, rest_loop_min := 30,
    pauseFlags := [false], pauseGen := 0,
    doneFlags := [false], doneGen := 0,
    workers := [], child_process := none, notifs := [] }

/-- Click on the play button (shown only in STEADY while paused):
pause := false, running := true, store false into pause_flag, spawn a
countdown thread capturing the current Arc clones, and overwrite
child_process with the new join handle. -/
def playF (s : Sys) : Sys :=
  if s.app_state = AppState.STEADY ∧ s.pause = true then
    { s with pause := false, running := true,
             pauseFlags := s.pauseFlags.set s.pauseGen false,
             workers := s.workers ++
               [{ timeGen := s.timeGen, pauseGen := s.pauseGen,
                  doneGen := s.doneGen, pc := WorkerPC.check,
                  joined := false }],
             child_process := some s.workers.length }
  else s

/-- Click on the pause button (shown only in STEADY while not paused):
pause := true and store true into pause_flag. -/
def pauseF (s : Sys) : Sys :=
  if s.app_state = AppState.STEADY ∧ s.pause = false then
    { s with pause := true,
             pauseFlags := s.pauseFlags.set s.pauseGen true }
  else s

/-- Click on the stop button (shown only in STEADY while running and
paused): running := false, then the whole struct is reassigned from
MyApp::default(), allocating fresh Arcs; the old join handle is dropped
without a join, spawned threads keep existing. -/
def stopF (s : Sys) : Sys :=
  if s.app_state = AppState.STEADY ∧ s.running = true ∧ s.pause = true then
    { app_state := AppState.STEADY, run_state := RunState.LAP,
      running := false, pause := true,
      heap := s.heap ++ [25 * 60], timeGen := s.heap.length,
      cur_lap := 0, cur_loop := 0,
      lap_dur_min := 25, rest_lap_min := 5, rest_loop_min := 30,
      pauseFlags := s.pauseFlags ++ [false], pauseGen := s.pauseFlags.length,
      doneFlags := s.doneFlags ++ [false], doneGen := s.doneFlags.length,
      workers := s.workers, child_process := none, notifs := s.notifs }
  else s

/-- Click on the gear button (shown only in STEADY while not running):
switch to the settings screen. -/
def gearF (s : Sys) : Sys :=
  if s.app_state = AppState.STEADY ∧ s.running = false then
    { s with app_state := AppState.SETTING }
  else s

/-- The egui DragValue widgets carry range 1..=59: an edited value is
clamped into that interval. -/
def clampDur (v : Nat) : Nat := min 59 (max 1 v)

/-- Editing the lap duration field on the settings screen. -/
def dragLapF (v : Nat) (s : Sys) : Sys :=
  if s.app_state = AppState.SETTING then
    { s with lap_dur_min := clampDur v }
  else s

/-- Editing the lap rest field on the settings screen. -/
def dragRestLapF (v : Nat) (s : Sys) : Sys :=
  if s.app_state = AppState.SETTING then
    { s with rest_lap_min := clampDur v }
  else s

/-- Editing the loop rest field on the settings screen. -/
def dragRestLoopF (v : Nat) (s : Sys) : Sys :=
  if s.app_state = AppState.SETTING then
    { s with rest_loop_min := clampDur v }
  else s

/-- Click on confirm in the settings screen: time_sec is replaced by a
fresh Arc holding lap_dur_min * 60 and the app returns to STEADY. -/
def confirmF (s : Sys) : Sys :=
  if s.app_state = AppState.SETTING then
    { s with heap := s.heap ++ [s.lap_dur_min * 60],
             timeGen := s.heap.length,
             app_state := AppState.STEADY }
  else s

/-- The expiry-transition half of MyApp.update: when running and not
paused and the shared counter reads 0, either the Work branch (auto pause,
notification, lap counter increment modulo 256 as a u8, move to the
matching rest phase with a fresh Arc for the rest duration) or the rest
branch (fresh Arc for the lap duration, back to Work, flags untouched). -/
def transitionF (s : Sys) : Sys :=
  if s.running && !s.pause then
    if timeVal s = 0 ∧ s.run_state = RunState.LAP then
      if (s.cur_lap + 1) % 256 > 3 then
        { s with pause := true, notifs := s.notifs ++ [pomodoroNotif],
                 heap := s.heap ++ [s.rest_loop_min * 60],
                 timeGen := s.heap.length,
                 run_state := RunState.RestLoop, cur_lap := 0,
                 cur_loop := (s.cur_loop + 1) % 256 }
      else
        { s with pause := true, notifs := s.notifs ++ [pomodoroNotif],
                 heap := s.heap ++ [s.rest_lap_min * 60],
                 timeGen := s.heap.length,
                 run_state := RunState.RestLap,
                 cur_lap := (s.cur_lap + 1) % 256 }
    else if timeVal s = 0 ∧ s.run_state ≠ RunState.LAP then
      { s with heap := s.heap ++ [s.lap_dur_min * 60],
               timeGen := s.heap.length,
               run_state := RunState.LAP }
    else s
  else s

/-- Bookkeeping for a joined thread: its record is marked joined. -/
def joinAt (ws : List Worker) (i : Nat) : List Worker :=
  match ws.get? i with
  | some w => ws.set i { w with joined := true }
  | none => ws

/-- The reclamation half of MyApp.update: when thread_done_flag reads
true, take and join the stored handle (if any) and store false back. -/
def reclaimF (s : Sys) : Sys :=
  if flagVal s.doneFlags s.doneGen then
    { s with workers := (match s.child_process with
                         | some i => joinAt s.workers i
                         | none => s.workers),
             child_process := none,
             doneFlags := s.doneFlags.set s.doneGen false }
  else s

/-- One call of MyApp.update: expiry transition, then reclamation. -/
def frameF (s : Sys) : Sys := reclaimF (transitionF s)

/-- Effect of one atomic step of countdown thread w (stored at index i),
following the source loop.  check: if the captured pause flag reads true,
store true into the captured done flag and exit, else proceed to the
sleep.  sleep: the one-second sleep completes.  dec: lock the captured
cell and decrement it when positive (single critical section), back to
check. -/
def workerDo (s : Sys) (i : Nat) (w : Worker) : Sys :=
  match w.pc with
  | WorkerPC.exited => s
  | WorkerPC.check =>
      if flagVal s.pauseFlags w.pauseGen then
        { s with workers := s.workers.set i { w with pc := WorkerPC.exited },
                 doneFlags := s.doneFlags.set w.doneGen true }
      else
        { s with workers := s.workers.set i { w with pc := WorkerPC.sleep } }
  | WorkerPC.sleep =>
      { s with workers := s.workers.set i { w with pc := WorkerPC.dec } }
  | WorkerPC.dec =>
      { s with heap := (if 0 < cellVal s.heap w.timeGen
                        then s.heap.set w.timeGen (cellVal s.heap w.timeGen - 1)
                        else s.heap),
               workers := s.workers.set i { w with pc := WorkerPC.check } }

/-- One atomic step of the countdown thread at index i (no thread at that
index: nothing happens). -/
def workerStepF (s : Sys) (i : Nat) : Sys :=
  match s.workers.get? i with
  | none => s
  | some w => workerDo s i w

/-- The atomic actions of the interleaving semantics: the five buttons,
the three settings edits, one frame of update, or one thread step. -/
inductive Action where
  | playBtn
  | pauseBtn
  | stopBtn
  | gearBtn
  | confirmBtn
  | frame
  | dragLap (v : Nat)
  | dragRestLap (v : Nat)
  | dragRestLoop (v : Nat)
  | worker (i : Nat)
deriving DecidableEq

def applyA (a : Action) (s : Sys) : Sys :=
  match a with
  | Action.playBtn => playF s
  | Action.pauseBtn => pauseF s
  | Action.stopBtn => stopF s
  | Action.gearBtn => gearF s
  | Action.confirmBtn => confirmF s
  | Action.frame => frameF s
  | Action.dragLap v => dragLapF v s
  | Action.dragRestLap v => dragRestLapF v s
  | Action.dragRestLoop v => dragRestLoopF v s
  | Action.worker i => workerStepF s i

/-- Run a sequence of actions from the freshly created application. -/
def runA (l : List Action) : Sys :=
  List.foldl (fun s a => applyA a s) defaultSys l

/-- States reachable from the freshly created application. -/
inductive Reach : Sys → Prop where
  | init : Reach defaultSys
  | step : ∀ (s : Sys) (a : Action), Reach s → Reach (applyA a s)

/-- Number of spawned threads that are still executing and whose handle
was never joined. -/
def liveUnjoined (s : Sys) : Nat :=
  (s.workers.filter
    (fun w => decide (w.pc ≠ WorkerPC.exited) && !w.joined)).length

/-- The user scenario the spec calls configure(cfg): open the settings
screen, set the three durations, confirm. -/
def configureSeq (a b c : Nat) (s : Sys) : Sys :=
  confirmF (dragRestLoopF c (dragRestLapF b (dragLapF a (gearF s))))

/-! ## Helper lemmas about cells and lists -/

lemma cellVal_snoc (l : List Nat) (v : Nat) : cellVal (l ++ [v]) l.length = v := by
  simp [cellVal, List.get?_eq_getElem?, List.getElem?_concat_length]

lemma get_some_lt {α : Type} {l : List α} {i : Nat} {a : α}
    (h : l.get? i = some a) : i < l.length := by
  induction l generalizing i with
  | nil => simp [List.get?] at h
  | cons x xs ih =>
      cases i with
      | zero => simp
      | succ j =>
          simp only [List.get?] at h
          simpa [Nat.succ_lt_succ_iff] using ih h

lemma get_set_self {α : Type} (l : List α) (i : Nat) (a : α)
    (h : i < l.length) : (l.set i a).get? i = some a := by
  induction l generalizing i with
  | nil => simp at h
  | cons x xs ih =>
      cases i with
      | zero => rfl
      | succ j =>
          simp only [List.set, List.get?]
          exact ih j (by simpa [Nat.succ_lt_succ_iff] using h)

/-! ## Claim C9 -/

/-- Claim C9: on creation the default state is Work phase, a 25 minute lap
duration with 1500 seconds on the shared counter, 5 minute lap rest,
30 minute loop rest, zero lap and loop counters, not running, paused. -/
theorem C9_defaults :
    defaultSys.run_state = RunState.LAP ∧ timeVal defaultSys = 1500 ∧
    defaultSys.lap_dur_min = 25 ∧ defaultSys.rest_lap_min = 5 ∧
    defaultSys.rest_loop_min = 30 ∧ defaultSys.cur_lap = 0 ∧
    defaultSys.cur_loop = 0 ∧ defaultSys.running = false ∧
    defaultSys.pause = true := by decide

/-! ## Claim C2 -/

/-- Scenario for claim C2: configure a one minute lap, start, pause. -/
def c2Trace : List Action :=
  [Action.gearBtn, Action.dragLap 1, Action.confirmBtn,
   Action.playBtn, Action.pauseBtn]

/-- Claim C2 counterexample: after configuring a 1 minute lap duration and
reaching a paused running state, stop is legal; the claim then demands the
configured durations stay unchanged (lap duration 1) and the counter be
reset to that configured duration (60).  The code instead reassigns the
whole struct from MyApp::default(): the lap duration becomes 25 again and
the counter 1500. -/
theorem C2_counterexample :
    (runA c2Trace).lap_dur_min = 1 ∧ timeVal (runA c2Trace) = 60 ∧
    (runA c2Trace).running = true ∧ (runA c2Trace).pause = true ∧
    (runA (c2Trace ++ [Action.stopBtn])).lap_dur_min = 25 ∧
    timeVal (runA (c2Trace ++ [Action.stopBtn])) = 1500 := by decide

/-- Claim C2 (amended): whenever stop is legal (STEADY screen, running,
paused) it resets the application to the factory default: Work phase,
counter at 25 * 60 seconds, zero counters, not running, paused, handle
dropped, and the three configured durations reset to 25, 5 and 30 minutes;
the prior configuration is discarded rather than preserved. -/
theorem C2_stop_factory_reset (s : Sys) (h1 : s.app_state = AppState.STEADY)
    (h2 : s.running = true) (h3 : s.pause = true) :
    (stopF s).run_state = RunState.LAP ∧ timeVal (stopF s) = 25 * 60 ∧
    (stopF s).cur_lap = 0 ∧ (stopF s).cur_loop = 0 ∧
    (stopF s).running = false ∧ (stopF s).pause = true ∧
    (stopF s).lap_dur_min = 25 ∧ (stopF s).rest_lap_min = 5 ∧
    (stopF s).rest_loop_min = 30 ∧ (stopF s).child_process = none := by
  unfold stopF
  rw [if_pos ⟨h1, h2, h3⟩]
  exact ⟨rfl, cellVal_snoc s.heap (25 * 60), rfl, rfl, rfl, rfl, rfl, rfl,
         rfl, rfl⟩

/-- A paused running state used to instantiate the amended claim C2. -/
def c2wState : Sys := { defaultSys with running := true }

theorem C2_stop_factory_reset_witness :
    (stopF c2wState).lap_dur_min = 25 ∧ timeVal (stopF c2wState) = 25 * 60 := by
  have h := C2_stop_factory_reset c2wState rfl rfl rfl
  exact ⟨h.2.2.2.2.2.2.1, h.2.1⟩

/-! ## Claim C6 -/

/-- Claim C6 counterexample: the engine is stopped and the requested lap
duration 60 is outside [1, 59], so per the claim the configuration request
must be rejected as a no-op.  The code instead clamps the entered value to
59 in the settings widget and applies it on confirm. -/
theorem C6_counterexample :
    (configureSeq 60 5 30 defaultSys).lap_dur_min = 59 ∧
    timeVal (configureSeq 60 5 30 defaultSys) = 59 * 60 ∧
    ¬ configureSeq 60 5 30 defaultSys = defaultSys := by decide

/-- Claim C6 (amended): the settings screen cannot be opened while the
engine is running (the gear click is a no-op), so configuration only
happens stopped; an out of range duration is not rejected but clamped into
[1, 59] by the entry widget; confirm applies the clamped values, replaces
the counter by the clamped lap duration in seconds, and the engine stays
stopped with phase and pause state untouched. -/
theorem C6_configure_clamps (s : Sys) (a b c : Nat)
    (hst : s.app_state = AppState.STEADY) :
    (s.running = true → gearF s = s) ∧
    (s.running = false →
      (configureSeq a b c s).running = false ∧
      (configureSeq a b c s).pause = s.pause ∧
      (configureSeq a b c s).app_state = AppState.STEADY ∧
      (configureSeq a b c s).run_state = s.run_state ∧
      (configureSeq a b c s).lap_dur_min = clampDur a ∧
      (configureSeq a b c s).rest_lap_min = clampDur b ∧
      (configureSeq a b c s).rest_loop_min = clampDur c ∧
      1 ≤ clampDur a ∧ clampDur a ≤ 59 ∧
      timeVal (configureSeq a b c s) = clampDur a * 60) := by
  constructor
  · intro hr
    unfold gearF
    rw [if_neg]
    intro hcon
    rw [hr] at hcon
    exact Bool.true_eq_false.mp hcon.2
  · intro hr
    have e1 : gearF s = { s with app_state := AppState.SETTING } := by
      unfold gearF
      exact if_pos ⟨hst, hr⟩
    have e2 : dragLapF a { s with app_state := AppState.SETTING } =
        { s with app_state := AppState.SETTING,
                 lap_dur_min := clampDur a } := by
      unfold dragLapF
      exact if_pos rfl
    have e3 : dragRestLapF b
        { s with app_state := AppState.SETTING, lap_dur_min := clampDur a } =
        { s with app_state := AppState.SETTING, lap_dur_min := clampDur a,
                 rest_lap_min := clampDur b } := by
      unfold dragRestLapF
      exact if_pos rfl
    have e4 : dragRestLoopF c
        { s with app_state := AppState.SETTING, lap_dur_min := clampDur a,
                 rest_lap_min := clampDur b } =
        { s with app_state := AppState.SETTING, lap_dur_min := clampDur a,
                 rest_lap_min := clampDur b, rest_loop_min := clampDur c } := by
      unfold dragRestLoopF
      exact if_pos rfl
    have e5 : confirmF
        { s with app_state := AppState.SETTING, lap_dur_min := clampDur a,
                 rest_lap_min := clampDur b, rest_loop_min := clampDur c } =
        { s with app_state := AppState.STEADY, lap_dur_min := clampDur a,
                 rest_lap_min := clampDur b, rest_loop_min := clampDur c,
                 heap := s.heap ++ [clampDur a * 60],
                 timeGen := s.heap.length } := by
      unfold confirmF
      exact if_pos rfl
    unfold configureSeq
    rw [e1, e2, e3, e4, e5]
    refine ⟨hr, rfl, rfl, rfl, rfl, rfl, rfl, ?_, ?_, ?_⟩
    · exact Nat.le_min.mpr ⟨by norm_num, Nat.le_max_left 1 a⟩
    · exact Nat.min_le_left 59 (max 1 a)
    · exact cellVal_snoc s.heap (clampDur a * 60)

theorem C6_configure_clamps_witness :
    (configureSeq 0 30 60 defaultSys).lap_dur_min = clampDur 0 ∧
    timeVal (configureSeq 0 30 60 defaultSys) = clampDur 0 * 60 := by
  have h := (C6_configure_clamps defaultSys 0 30 60 rfl).2 rfl
  exact ⟨h.2.2.2.2.1, h.2.2.2.2.2.2.2.2.2⟩

/-! ## Claim C8 -/

/-- Scenario for claim C8: play, one worker iteration (the flag check
passes and the sleep begins), pause, play again before the worker wakes,
then one update frame. -/
def c8Trace : List Action :=
  [Action.playBtn, Action.worker 0, Action.pauseBtn, Action.playBtn,
   Action.frame]

/-- Claim C8 (code bug): a pause immediately followed by a play (both
within one worker sleep) leaves two live unjoined workers.  The second
play stores false into the shared cancellation flag before the first
worker ever observes the true written by pause, spawns a second thread
decrementing the same cell, and overwrites the stored join handle, so the
first worker can never be reclaimed; the following update frame reclaims
nothing since no done flag was set. -/
theorem C8_two_live_workers :
    liveUnjoined (runA c8Trace) = 2 ∧
    (runA c8Trace).child_process = some 1 ∧
    flagVal (runA c8Trace).pauseFlags (runA c8Trace).pauseGen = false := by
  decide

/-! ## Claim C4 -/

/-- Scenario for claim C4: play, one worker step (check passed, sleep in
progress), then a pause click setting the cancellation flag. -/
def c4Trace : List Action :=
  [Action.playBtn, Action.worker 0, Action.pauseBtn]

/-- Claim C4 counterexample: the cancellation flag is set while the worker
sleeps; per the claim the worker checks the flag right after the sleep and
exits without decrementing, leaving the counter at 1500.  In the code the
flag check precedes the sleep, so the woken worker still performs its
decrement: two further worker steps bring the counter to 1499 with the
worker alive at the top of its loop. -/
theorem C4_counterexample :
    flagVal (runA c4Trace).pauseFlags 0 = true ∧
    (runA c4Trace).workers.get? 0 =
      some { timeGen := 0, pauseGen := 0, doneGen := 0,
             pc := WorkerPC.sleep, joined := false } ∧
    timeVal (runA c4Trace) = 1500 ∧
    timeVal (runA (c4Trace ++ [Action.worker 0, Action.worker 0])) = 1499 ∧
    (runA (c4Trace ++ [Action.worker 0, Action.worker 0])).workers.get? 0 =
      some { timeGen := 0, pauseGen := 0, doneGen := 0,
             pc := WorkerPC.check, joined := false } := by decide

/-! ## Claim C1 -/

/-- Scenario for claim C1: configure 1 minute lap and 1 minute lap rest,
play, let the worker count the lap down to zero (60 decrements, three
steps each), observe the expiry frame (auto pause into RestLap), play
again, let the second worker count the rest down to zero, then the frame
that performs the rest to work transition. -/
def c1Trace : List Action :=
  [Action.gearBtn, Action.dragLap 1, Action.dragRestLap 1,
   Action.confirmBtn, Action.playBtn] ++
  List.replicate 180 (Action.worker 0) ++
  [Action.frame, Action.playBtn] ++
  List.replicate 180 (Action.worker 1) ++
  [Action.frame]

set_option maxRecDepth 100000 in
/-- Claim C1 (code bug): when a rest phase expires, the update frame does
set the phase back to Work, load the counter with the lap duration and
keep running unpaused — but it starts no fresh worker: the worker list and
the stored handle are unchanged, and the counter was replaced by a fresh
Arc cell (generation 3) that no live worker references (they hold
generations 1 and 2), so nothing ever decrements the new counter and the
countdown stalls until a manual pause and play. -/
theorem C1_rest_transition_stalls :
    (runA c1Trace).run_state = RunState.LAP ∧
    timeVal (runA c1Trace) = 60 ∧
    (runA c1Trace).running = true ∧ (runA c1Trace).pause = false ∧
    (runA c1Trace).workers =
      [{ timeGen := 1, pauseGen := 0, doneGen := 0,
         pc := WorkerPC.check, joined := false },
       { timeGen := 2, pauseGen := 0, doneGen := 0,
         pc := WorkerPC.check, joined := false }] ∧
    (runA c1Trace).timeGen = 3 ∧
    (∀ w ∈ (runA c1Trace).workers, w.timeGen ≠ (runA c1Trace).timeGen) ∧
    (runA c1Trace).child_process = some 1 := by decide

/-! ## More helper lemmas -/

lemma get_set_none {α : Type} (l : List α) (i : Nat) (a : α)
    (h : l.length ≤ i) : (l.set i a).get? i = none := by
  rw [List.get?_eq_none]
  rw [List.length_set]
  exact h

lemma cellVal_set_self (l : List Nat) (g v : Nat) (h : g < l.length) :
    cellVal (l.set g v) g = v := by
  unfold cellVal
  rw [get_set_self l g v h]
  rfl

lemma cellVal_pos_lt {l : List Nat} {g : Nat} (h : 0 < cellVal l g) :
    g < l.length := by
  by_cases hg : g < l.length
  · exact hg
  · exfalso
    unfold cellVal at h
    rw [List.get?_eq_none.mpr (Nat.le_of_not_lt hg)] at h
    exact Nat.lt_irrefl 0 h

lemma flagVal_set_false (l : List Bool) (g : Nat) :
    flagVal (l.set g false) g = false := by
  by_cases h : g < l.length
  · unfold flagVal
    rw [get_set_self l g false h]
    rfl
  · unfold flagVal
    rw [get_set_none l g false (Nat.le_of_not_lt h)]
    rfl

lemma reclaim_run_state (s : Sys) : (reclaimF s).run_state = s.run_state := by
  unfold reclaimF
  split <;> rfl

lemma reclaim_pause (s : Sys) : (reclaimF s).pause = s.pause := by
  unfold reclaimF
  split <;> rfl

lemma reclaim_running (s : Sys) : (reclaimF s).running = s.running := by
  unfold reclaimF
  split <;> rfl

lemma reclaim_cur_lap (s : Sys) : (reclaimF s).cur_lap = s.cur_lap := by
  unfold reclaimF
  split <;> rfl

lemma reclaim_cur_loop (s : Sys) : (reclaimF s).cur_loop = s.cur_loop := by
  unfold reclaimF
  split <;> rfl

lemma reclaim_notifs (s : Sys) : (reclaimF s).notifs = s.notifs := by
  unfold reclaimF
  split <;> rfl

lemma reclaim_heap (s : Sys) : (reclaimF s).heap = s.heap := by
  unfold reclaimF
  split <;> rfl

lemma reclaim_timeGen (s : Sys) : (reclaimF s).timeGen = s.timeGen := by
  unfold reclaimF
  split <;> rfl

lemma reclaim_timeVal (s : Sys) : timeVal (reclaimF s) = timeVal s := by
  unfold timeVal
  rw [reclaim_heap, reclaim_timeGen]

lemma workerStepF_eq (s : Sys) (i : Nat) (w : Worker)
    (hw : s.workers.get? i = some w) : workerStepF s i = workerDo s i w := by
  unfold workerStepF
  rw [hw]

/-! ## Claim C3 -/

/-- Claim C3: in any running unpaused state with the counter at zero in
the Work phase (and the u8 lap counter within its reachable range, see
claim C7), the update frame pauses, appends exactly one persistent
"Pomodoro" notification request, increments the lap counter and branches:
past the fourth lap it zeroes the lap counter, increments the loop
counter (as a u8) and enters LoopRest with the loop rest duration on the
counter, otherwise it enters LapRest with the lap rest duration. -/
theorem C3_work_expiry (s : Sys) (hr : s.running = true)
    (hp : s.pause = false) (ht : timeVal s = 0)
    (hrs : s.run_state = RunState.LAP) (hl : s.cur_lap ≤ 3) :
    (frameF s).pause = true ∧
    (frameF s).notifs = s.notifs ++ [pomodoroNotif] ∧
    (s.cur_lap + 1 > 3 →
      (frameF s).cur_lap = 0 ∧
      (frameF s).cur_loop = (s.cur_loop + 1) % 256 ∧
      (frameF s).run_state = RunState.RestLoop ∧
      timeVal (frameF s) = s.rest_loop_min * 60) ∧
    (s.cur_lap + 1 ≤ 3 →
      (frameF s).cur_lap = s.cur_lap + 1 ∧
      (frameF s).cur_loop = s.cur_loop ∧
      (frameF s).run_state = RunState.RestLap ∧
      timeVal (frameF s) = s.rest_lap_min * 60) := by
  have hmod : (s.cur_lap + 1) % 256 = s.cur_lap + 1 :=
    Nat.mod_eq_of_lt (by omega)
  have hguard : (s.running && !s.pause) = true := by
    rw [hr, hp]
    rfl
  unfold frameF transitionF
  rw [if_pos hguard, if_pos (And.intro ht hrs), hmod]
  by_cases h4 : s.cur_lap + 1 > 3
  · rw [if_pos h4]
    refine ⟨?_, ?_, ?_, ?_⟩
    · rw [reclaim_pause]
    · rw [reclaim_notifs]
    · intro _
      refine ⟨?_, ?_, ?_, ?_⟩
      · rw [reclaim_cur_lap]
      · rw [reclaim_cur_loop]
      · rw [reclaim_run_state]
      · rw [reclaim_timeVal]
        exact cellVal_snoc s.heap (s.rest_loop_min * 60)
    · intro hle
      omega
  · rw [if_neg h4]
    refine ⟨?_, ?_, ?_, ?_⟩
    · rw [reclaim_pause]
    · rw [reclaim_notifs]
    · intro hgt
      omega
    · intro _
      refine ⟨?_, ?_, ?_, ?_⟩
      · rw [reclaim_cur_lap]
      · rw [reclaim_cur_loop]
      · rw [reclaim_run_state]
      · rw [reclaim_timeVal]
        exact cellVal_snoc s.heap (s.rest_lap_min * 60)

/-- A running Work state whose counter has just reached zero. -/
def c3wState : Sys :=
  { defaultSys with running := true, pause := false, heap := [0] }

theorem C3_work_expiry_witness :
    (frameF c3wState).pause = true ∧
    (frameF c3wState).notifs = [pomodoroNotif] ∧
    (frameF c3wState).run_state = RunState.RestLap ∧
    (frameF c3wState).cur_lap = 1 ∧
    timeVal (frameF c3wState) = 300 := by
  have h := C3_work_expiry c3wState rfl rfl rfl rfl (by decide)
  have h2 := h.2.2.2 (by decide)
  refine ⟨h.1, ?_, h2.2.2.1, h2.1, ?_⟩
  · simpa using h.2.1
  · simpa using h2.2.2.2

/-! ## Claim C10 -/

/-- Claim C10: from any paused state of the main screen, the play click
changes only the running and pause flags (and stores false into the
cancellation flag, spawning the worker): the shared counter (cell and
value), phase, lap and loop counters and the three configured durations
are all unchanged, so the countdown resumes from the exact remaining
time. -/
theorem C10_play_frame (s : Sys) (hst : s.app_state = AppState.STEADY)
    (hp : s.pause = true) :
    (playF s).heap = s.heap ∧ (playF s).timeGen = s.timeGen ∧
    timeVal (playF s) = timeVal s ∧
    (playF s).run_state = s.run_state ∧
    (playF s).cur_lap = s.cur_lap ∧ (playF s).cur_loop = s.cur_loop ∧
    (playF s).lap_dur_min = s.lap_dur_min ∧
    (playF s).rest_lap_min = s.rest_lap_min ∧
    (playF s).rest_loop_min = s.rest_loop_min ∧
    (playF s).running = true ∧ (playF s).pause = false ∧
    flagVal (playF s).pauseFlags (playF s).pauseGen = false := by
  unfold playF
  rw [if_pos ⟨hst, hp⟩]
  exact ⟨rfl, rfl, rfl, rfl, rfl, rfl, rfl, rfl, rfl, rfl, rfl,
         flagVal_set_false s.pauseFlags s.pauseGen⟩

theorem C10_play_frame_witness :
    timeVal (playF defaultSys) = 1500 ∧
    (playF defaultSys).run_state = RunState.LAP ∧
    (playF defaultSys).running = true ∧
    (playF defaultSys).pause = false := by
  have h := C10_play_frame defaultSys rfl rfl
  exact ⟨h.2.2.1, h.2.2.2.1, h.2.2.2.2.2.2.2.2.2.1, h.2.2.2.2.2.2.2.2.2.2.1⟩

/-! ## Characterization of the four worker steps -/

lemma worker_check_true (s : Sys) (i : Nat) (w : Worker)
    (hw : s.workers.get? i = some w) (hpc : w.pc = WorkerPC.check)
    (hf : flagVal s.pauseFlags w.pauseGen = true) :
    workerStepF s i =
      { s with workers := s.workers.set i { w with pc := WorkerPC.exited },
               doneFlags := s.doneFlags.set w.doneGen true } := by
  rw [workerStepF_eq s i w hw]
  simp only [workerDo, hpc]
  rw [if_pos hf]

lemma worker_check_false (s : Sys) (i : Nat) (w : Worker)
    (hw : s.workers.get? i = some w) (hpc : w.pc = WorkerPC.check)
    (hf : flagVal s.pauseFlags w.pauseGen = false) :
    workerStepF s i =
      { s with workers := s.workers.set i { w with pc := WorkerPC.sleep } } := by
  rw [workerStepF_eq s i w hw]
  simp only [workerDo, hpc]
  rw [if_neg (by rw [hf]; exact Bool.false_ne_true)]

lemma worker_sleep_step (s : Sys) (i : Nat) (w : Worker)
    (hw : s.workers.get? i = some w) (hpc : w.pc = WorkerPC.sleep) :
    workerStepF s i =
      { s with workers := s.workers.set i { w with pc := WorkerPC.dec } } := by
  rw [workerStepF_eq s i w hw]
  simp only [workerDo, hpc]

lemma worker_dec_step (s : Sys) (i : Nat) (w : Worker)
    (hw : s.workers.get? i = some w) (hpc : w.pc = WorkerPC.dec) :
    workerStepF s i =
      { s with heap := (if 0 < cellVal s.heap w.timeGen
                        then s.heap.set w.timeGen (cellVal s.heap w.timeGen - 1)
                        else s.heap),
               workers := s.workers.set i { w with pc := WorkerPC.check } } := by
  rw [workerStepF_eq s i w hw]
  simp only [workerDo, hpc]

lemma worker_exited_step (s : Sys) (i : Nat) (w : Worker)
    (hw : s.workers.get? i = some w) (hpc : w.pc = WorkerPC.exited) :
    workerStepF s i = s := by
  rw [workerStepF_eq s i w hw]
  simp only [workerDo, hpc]

/-! ## Claim C5 -/

/-- Claim C5: the decrement step of a countdown worker is a no-op when its
cell reads zero (so the u32 counter never underflows), and a worker can
only move to the exited state from the flag check at the top of its loop
observing a true cancellation flag — it never ends merely because the
counter reached zero. -/
theorem C5_clamp_and_exit (s : Sys) (i : Nat) (w : Worker)
    (hw : s.workers.get? i = some w) :
    (w.pc = WorkerPC.dec → cellVal s.heap w.timeGen = 0 →
      (workerStepF s i).heap = s.heap) ∧
    (∀ w', (workerStepF s i).workers.get? i = some w' →
      w'.pc = WorkerPC.exited →
      w.pc = WorkerPC.exited ∨
      (w.pc = WorkerPC.check ∧ flagVal s.pauseFlags w.pauseGen = true)) := by
  have hi : i < s.workers.length := get_some_lt hw
  constructor
  · intro hpc hz
    rw [worker_dec_step s i w hw hpc]
    show (if 0 < cellVal s.heap w.timeGen
          then s.heap.set w.timeGen (cellVal s.heap w.timeGen - 1)
          else s.heap) = s.heap
    rw [hz]
    simp
  · intro w' hw' hx
    cases hpc : w.pc with
    | exited => exact Or.inl rfl
    | check =>
        by_cases hf : flagVal s.pauseFlags w.pauseGen = true
        · exact Or.inr ⟨rfl, hf⟩
        · exfalso
          rw [worker_check_false s i w hw hpc (Bool.not_eq_true _ ▸ hf)] at hw'
          have hw2 : (s.workers.set i { w with pc := WorkerPC.sleep }).get? i
              = some w' := hw'
          rw [get_set_self s.workers i _ hi] at hw2
          injection hw2 with he
          rw [← he] at hx
          exact nomatch hx
    | sleep =>
        exfalso
        rw [worker_sleep_step s i w hw hpc] at hw'
        have hw2 : (s.workers.set i { w with pc := WorkerPC.dec }).get? i
            = some w' := hw'
        rw [get_set_self s.workers i _ hi] at hw2
        injection hw2 with he
        rw [← he] at hx
        exact nomatch hx
    | dec =>
        exfalso
        rw [worker_dec_step s i w hw hpc] at hw'
        have hw2 : (s.workers.set i { w with pc := WorkerPC.check }).get? i
            = some w' := hw'
        rw [get_set_self s.workers i _ hi] at hw2
        injection hw2 with he
        rw [← he] at hx
        exact nomatch hx

/-- A state with one worker about to decrement a cell that reads zero. -/
def c5wState : Sys :=
  { defaultSys with
    heap := [0],
    workers := [{ timeGen := 0, pauseGen := 0, doneGen := 0,
                  pc := WorkerPC.dec, joined := false }] }

theorem C5_clamp_and_exit_witness :
    (workerStepF c5wState 0).heap = c5wState.heap := by
  have h := C5_clamp_and_exit c5wState 0
      { timeGen := 0, pauseGen := 0, doneGen := 0, pc := WorkerPC.dec,
        joined := false } (by decide)
  exact h.1 (by decide) (by decide)

lemma worker_len (s : Sys) (i : Nat) :
    (workerStepF s i).workers.length = s.workers.length := by
  unfold workerStepF
  split
  · rfl
  · unfold workerDo
    split
    · rfl
    · split <;> simp [List.length_set]
    · simp [List.length_set]
    · simp [List.length_set]

lemma workerStep_pauseFlags (s : Sys) (i : Nat) :
    (workerStepF s i).pauseFlags = s.pauseFlags := by
  unfold workerStepF
  split
  · rfl
  · unfold workerDo
    split
    · rfl
    · split <;> rfl
    · rfl
    · rfl

/-- Claim C4 (amended): on each iteration the worker first checks the
cancellation flag — if it reads true, the worker exits immediately,
before any sleep and without touching the counter; only on a false check
does it sleep one second and then decrement the counter by 1 when
positive, without rechecking the flag after the sleep.  Consequently a
cancellation raised while the worker sleeps is observed only at the next
check: the worker still performs the one in-flight decrement (when the
counter is positive) and then exits within three steps. -/
theorem C4_worker_iteration (s : Sys) (i : Nat) (w : Worker)
    (hw : s.workers.get? i = some w) :
    (w.pc = WorkerPC.check → flagVal s.pauseFlags w.pauseGen = true →
      (workerStepF s i).workers.get? i
        = some { w with pc := WorkerPC.exited } ∧
      (workerStepF s i).heap = s.heap) ∧
    (w.pc = WorkerPC.check → flagVal s.pauseFlags w.pauseGen = false →
      (workerStepF s i).workers.get? i
        = some { w with pc := WorkerPC.sleep } ∧
      (workerStepF s i).heap = s.heap) ∧
    (w.pc = WorkerPC.sleep →
      (workerStepF s i).workers.get? i
        = some { w with pc := WorkerPC.dec } ∧
      (workerStepF s i).heap = s.heap) ∧
    (w.pc = WorkerPC.dec →
      (workerStepF s i).workers.get? i
        = some { w with pc := WorkerPC.check } ∧
      cellVal (workerStepF s i).heap w.timeGen =
        (if 0 < cellVal s.heap w.timeGen then cellVal s.heap w.timeGen - 1
         else cellVal s.heap w.timeGen)) ∧
    (w.pc = WorkerPC.sleep → flagVal s.pauseFlags w.pauseGen = true →
      ((workerStepF (workerStepF (workerStepF s i) i) i).workers.get?
          i).map Worker.pc = some WorkerPC.exited ∧
      cellVal (workerStepF (workerStepF (workerStepF s i) i) i).heap
          w.timeGen =
        (if 0 < cellVal s.heap w.timeGen then cellVal s.heap w.timeGen - 1
         else cellVal s.heap w.timeGen)) := by
  have hi : i < s.workers.length := get_some_lt hw
  refine ⟨?_, ?_, ?_, ?_, ?_⟩
  · intro hpc hf
    rw [worker_check_true s i w hw hpc hf]
    exact ⟨get_set_self s.workers i _ hi, rfl⟩
  · intro hpc hf
    rw [worker_check_false s i w hw hpc hf]
    exact ⟨get_set_self s.workers i _ hi, rfl⟩
  · intro hpc
    rw [worker_sleep_step s i w hw hpc]
    exact ⟨get_set_self s.workers i _ hi, rfl⟩
  · intro hpc
    rw [worker_dec_step s i w hw hpc]
    refine ⟨get_set_self s.workers i _ hi, ?_⟩
    show cellVal (if 0 < cellVal s.heap w.timeGen
                  then s.heap.set w.timeGen (cellVal s.heap w.timeGen - 1)
                  else s.heap) w.timeGen = _
    by_cases hv : 0 < cellVal s.heap w.timeGen
    · rw [if_pos hv, if_pos hv]
      exact cellVal_set_self s.heap w.timeGen _ (cellVal_pos_lt hv)
    · rw [if_neg hv, if_neg hv]
  · intro hpc hf
    have e1 := worker_sleep_step s i w hw hpc
    have h1heap : (workerStepF s i).heap = s.heap := by rw [e1]
    have hw1 : (workerStepF s i).workers.get? i
        = some { w with pc := WorkerPC.dec } := by
      rw [e1]
      exact get_set_self s.workers i _ hi
    have h1len : i < (workerStepF s i).workers.length := by
      rw [worker_len]
      exact hi
    have e2 := worker_dec_step (workerStepF s i) i
        { w with pc := WorkerPC.dec } hw1 rfl
    have hw2 : (workerStepF (workerStepF s i) i).workers.get? i
        = some { w with pc := WorkerPC.check } := by
      rw [e2]
      exact get_set_self (workerStepF s i).workers i _ h1len
    have h2len : i < (workerStepF (workerStepF s i) i).workers.length := by
      rw [worker_len, worker_len]
      exact hi
    have h2heap : cellVal (workerStepF (workerStepF s i) i).heap w.timeGen
        = (if 0 < cellVal s.heap w.timeGen
           then cellVal s.heap w.timeGen - 1
           else cellVal s.heap w.timeGen) := by
      rw [e2]
      show cellVal (if 0 < cellVal (workerStepF s i).heap w.timeGen
                    then (workerStepF s i).heap.set w.timeGen
                      (cellVal (workerStepF s i).heap w.timeGen - 1)
                    else (workerStepF s i).heap) w.timeGen = _
      rw [h1heap]
      by_cases hv : 0 < cellVal s.heap w.timeGen
      · rw [if_pos hv, if_pos hv]
        exact cellVal_set_self s.heap w.timeGen _ (cellVal_pos_lt hv)
      · rw [if_neg hv, if_neg hv]
    have hf2 : flagVal (workerStepF (workerStepF s i) i).pauseFlags
        w.pauseGen = true := by
      rw [workerStep_pauseFlags, workerStep_pauseFlags]
      exact hf
    have e3 := worker_check_true (workerStepF (workerStepF s i) i) i
        { w with pc := WorkerPC.check } hw2 rfl hf2
    have hw3 : (workerStepF (workerStepF (workerStepF s i) i) i).workers.get?
        i = some { w with pc := WorkerPC.exited } := by
      rw [e3]
      exact get_set_self (workerStepF (workerStepF s i) i).workers i _ h2len
    have h3heap : (workerStepF (workerStepF (workerStepF s i) i) i).heap
        = (workerStepF (workerStepF s i) i).heap := by rw [e3]
    constructor
    · rw [hw3]
      rfl
    · rw [h3heap]
      exact h2heap

/-- A running state whose single worker sleeps while the cancellation
flag is already set. -/
def c4wState : Sys :=
  { defaultSys with
    running := true, pause := false,
    heap := [10],
    pauseFlags := [true],
    workers := [{ timeGen := 0, pauseGen := 0, doneGen := 0,
                  pc := WorkerPC.sleep, joined := false }],
    child_process := some 0 }

theorem C4_worker_iteration_witness :
    ((workerStepF (workerStepF (workerStepF c4wState 0) 0) 0).workers.get?
        0).map Worker.pc = some WorkerPC.exited ∧
    cellVal (workerStepF (workerStepF (workerStepF c4wState 0) 0) 0).heap 0
      = 9 := by
  have h := (C4_worker_iteration c4wState 0
      { timeGen := 0, pauseGen := 0, doneGen := 0, pc := WorkerPC.sleep,
        joined := false } (by decide)).2.2.2.2 (by decide) (by decide)
  refine ⟨h.1, ?_⟩
  have h2 : cellVal
      (workerStepF (workerStepF (workerStepF c4wState 0) 0) 0).heap 0
      = (if 0 < cellVal c4wState.heap 0 then cellVal c4wState.heap 0 - 1
         else cellVal c4wState.heap 0) := h.2
  rw [h2]
  decide

/-! ## Claim C7 -/

lemma cur_lap_workerDo (s : Sys) (i : Nat) (w : Worker) :
    (workerDo s i w).cur_lap = s.cur_lap := by
  unfold workerDo
  split
  · rfl
  · split <;> rfl
  · rfl
  · rfl

lemma cur_lap_workerStep (s : Sys) (i : Nat) :
    (workerStepF s i).cur_lap = s.cur_lap := by
  unfold workerStepF
  split
  · rfl
  · exact cur_lap_workerDo s i _

lemma cur_lap_play (s : Sys) : (playF s).cur_lap = s.cur_lap := by
  unfold playF
  split <;> rfl

lemma cur_lap_pause (s : Sys) : (pauseF s).cur_lap = s.cur_lap := by
  unfold pauseF
  split <;> rfl

lemma cur_lap_gear (s : Sys) : (gearF s).cur_lap = s.cur_lap := by
  unfold gearF
  split <;> rfl

lemma cur_lap_confirm (s : Sys) : (confirmF s).cur_lap = s.cur_lap := by
  unfold confirmF
  split <;> rfl

lemma cur_lap_dragLap (v : Nat) (s : Sys) :
    (dragLapF v s).cur_lap = s.cur_lap := by
  unfold dragLapF
  split <;> rfl

lemma cur_lap_dragRestLap (v : Nat) (s : Sys) :
    (dragRestLapF v s).cur_lap = s.cur_lap := by
  unfold dragRestLapF
  split <;> rfl

lemma cur_lap_dragRestLoop (v : Nat) (s : Sys) :
    (dragRestLoopF v s).cur_lap = s.cur_lap := by
  unfold dragRestLoopF
  split <;> rfl

lemma cur_lap_stop (s : Sys) :
    (stopF s).cur_lap = 0 ∨ (stopF s).cur_lap = s.cur_lap := by
  unfold stopF
  split
  · exact Or.inl rfl
  · exact Or.inr rfl

lemma cur_lap_transition (s : Sys) (h : s.cur_lap ≤ 3) :
    (transitionF s).cur_lap ≤ 3 := by
  unfold transitionF
  split
  · split
    · split
      · show (0 : Nat) ≤ 3
        decide
      · show (s.cur_lap + 1) % 256 ≤ 3
        omega
    · split
      · exact h
      · exact h
  · exact h

/-- In every reachable state the u8 lap counter is at most 3 (it is reset
to zero the moment its increment passes 3). -/
lemma lap_bound {s : Sys} (h : Reach s) : s.cur_lap ≤ 3 := by
  induction h with
  | init => decide
  | step s a hs ih =>
      cases a with
      | playBtn =>
          show (playF s).cur_lap ≤ 3
          rw [cur_lap_play]
          exact ih
      | pauseBtn =>
          show (pauseF s).cur_lap ≤ 3
          rw [cur_lap_pause]
          exact ih
      | stopBtn =>
          rcases cur_lap_stop s with h0 | he
          · show (stopF s).cur_lap ≤ 3
            rw [h0]
            decide
          · show (stopF s).cur_lap ≤ 3
            rw [he]
            exact ih
      | gearBtn =>
          show (gearF s).cur_lap ≤ 3
          rw [cur_lap_gear]
          exact ih
      | confirmBtn =>
          show (confirmF s).cur_lap ≤ 3
          rw [cur_lap_confirm]
          exact ih
      | frame =>
          show (frameF s).cur_lap ≤ 3
          unfold frameF
          rw [reclaim_cur_lap]
          exact cur_lap_transition s ih
      | dragLap v =>
          show (dragLapF v s).cur_lap ≤ 3
          rw [cur_lap_dragLap]
          exact ih
      | dragRestLap v =>
          show (dragRestLapF v s).cur_lap ≤ 3
          rw [cur_lap_dragRestLap]
          exact ih
      | dragRestLoop v =>
          show (dragRestLoopF v s).cur_lap ≤ 3
          rw [cur_lap_dragRestLoop]
          exact ih
      | worker i =>
          show (workerStepF s i).cur_lap ≤ 3
          rw [cur_lap_workerStep]
          exact ih

/-- Claim C7: in every reachable state whose phase is Work or LapRest the
lap counter satisfies 0 <= cur_lap <= 3 (the lower bound is inherent to
the Nat model of u8); and in a reachable running unpaused Work state with
counter zero and cur_lap = 3 (the fourth work phase completing), the
update frame zeroes the lap counter, enters LoopRest, and bumps the loop
counter by exactly one u8 increment (literally plus one whenever the u8
does not wrap). -/
theorem C7_lap_invariant (s : Sys) (h : Reach s) :
    (s.run_state = RunState.LAP ∨ s.run_state = RunState.RestLap →
      s.cur_lap ≤ 3) ∧
    (s.running = true → s.pause = false → timeVal s = 0 →
     s.run_state = RunState.LAP → s.cur_lap = 3 →
      (frameF s).cur_lap = 0 ∧ (frameF s).run_state = RunState.RestLoop ∧
      (frameF s).cur_loop = (s.cur_loop + 1) % 256 ∧
      (s.cur_loop < 255 → (frameF s).cur_loop = s.cur_loop + 1)) := by
  refine ⟨fun _ => lap_bound h, ?_⟩
  intro hr hp ht hrs hl3
  have hguard : (s.running && !s.pause) = true := by
    rw [hr, hp]
    rfl
  unfold frameF transitionF
  rw [if_pos hguard, if_pos (And.intro ht hrs), hl3]
  rw [if_pos (by decide : (3 + 1) % 256 > 3)]
  refine ⟨?_, ?_, ?_, ?_⟩
  · rw [reclaim_cur_lap]
  · rw [reclaim_run_state]
  · rw [reclaim_cur_loop]
  · intro hlt
    rw [reclaim_cur_loop]
    show (s.cur_loop + 1) % 256 = s.cur_loop + 1
    exact Nat.mod_eq_of_lt (by omega)

theorem C7_lap_invariant_witness : defaultSys.cur_lap ≤ 3 :=
  (C7_lap_invariant defaultSys Reach.init).1 (Or.inl rfl)

end Pomodoro